import Mathlib

/-!
Verification development for the `twtscrape` crawler core
(`src/user.rs`, `src/usertweets.rs`).

The Rust code is shallowly embedded: structs become Lean structures,
fallible operations return `Except`, the async transport collaborator and
the recursive thread expander are passed in as function parameters, and
`HashSet` accumulation is modelled with `Finset` (hash sets deduplicate by
the element's own equality; the stored entities' identity is their
platform-assigned id, per spec §3, since their Rust `Eq`/`Hash` impls are
not under `src/`).  Machine integers: `u32`/`u64` counters are
`Nat` (no arithmetic is performed on them beyond parsing, which checks the
`u64` range explicitly), the `i32` error code is `Int`.
-/

set_option maxRecDepth 4096

/-- Embeds the `TwtScrapeError` variants used by `user.rs` / `usertweets.rs`.
`error.rs` itself is not under `src/`; the variant payloads are taken from the
construction sites in the two embedded files.  `IntParseFailure` models the
`From<ParseIntError>` conversion performed by the `?` on
`user.rest_id.parse()`; `Transport` models errors surfaced verbatim from the
transport collaborator. -/
inductive TwtScrapeError where
  | TwitterJSONError (code : Int) (message : String)
  | TwitterBadRestId (restId : String)
  | TwitterBadTimeParse (msg : String)
  | UserResultError
  | IntParseFailure (input : String)
  | Transport (msg : String)
  deriving DecidableEq, Repr

/-- `pub const TWITTER_IGNORE_ERROR_CODE: i32 = 37;` (user.rs). -/
def TWITTER_IGNORE_ERROR_CODE : Int := 37

/-- `pub const JOINDATE_PARSE_STR` (user.rs); consumed only by the external
`chrono` parser, which is modelled as a function parameter. -/
def JOINDATE_PARSE_STR : String := "%a %b %d %T %z %Y"

/-- Rust `str::starts_with`: the pattern's characters are a prefix of the
string's (stated over the character list, which evaluates by kernel
reduction; `String.startsWith` itself is defined through a well-founded
byte-level loop that does not). -/
def strStartsWith (s pre : String) : Bool :=
  pre.data.isPrefixOf s.data

/-- Rust `str::parse::<u64>()`: an optional leading `+`, then one or more
ASCII digits, value within the `u64` range; anything else is an error
(modelled as `none`). -/
def parseU64 (s : String) : Option Nat :=
  let cs := if s.data.head? = some (Char.ofNat 43) then s.data.tail else s.data
  if cs.isEmpty then none
  else if cs.all Char.isDigit then
    let n := cs.foldl (fun acc c => acc * 10 + (c.toNat - 48)) 0
    if n < 2 ^ 64 then some n else none
  else none

/-- Embeds the crate's `as_option!` macro as used in `user.rs` (the macro is
declared in the crate root, which is not under `src/`; its use sites
`as_option!(x, "")` and `as_option!(x, "", "0")` turn a string equal to one
of the listed sentinels into `None` and anything else into `Some`). -/
def asOption (s : String) (sentinels : List String) : Option String :=
  if sentinels.contains s then none else some s

/-! ## Profile data model (`user.rs`) -/

/-- `Error` envelope item (user.rs): `{ message: String, code: i32 }`. -/
structure Error where
  message : String
  code : Int
  deriving DecidableEq, Repr

/-- `Avatar` (user.rs). -/
structure Avatar where
  url : String
  banner : String
  is_nft : Bool
  deriving DecidableEq, Repr

/-- `ProfileName` (user.rs). -/
structure ProfileName where
  display : String
  handle : String
  deriving DecidableEq, Repr

/-- `ProfileStats` (user.rs). -/
structure ProfileStats where
  tweets : Nat
  following : Nat
  followers : Nat
  likes : Nat
  media_tweets : Nat
  verified : Bool
  blue_verified : Bool
  deriving DecidableEq, Repr

/-- `UserAffiliation` (user.rs). -/
structure UserAffiliation where
  badge : String
  url : String
  description : String
  deriving DecidableEq, Repr

/-- `ProfessionalCategory` (user.rs). -/
structure ProfessionalCategory where
  id : Nat
  name : String
  icon_name : String
  deriving DecidableEq, Repr

/-- `Professional` (user.rs). -/
structure Professional where
  rest_id : String
  professional_type : String
  category : List ProfessionalCategory
  deriving DecidableEq, Repr

/-- `Birthday` (user.rs): `day: u8, month: u8`. -/
structure Birthday where
  day : Nat
  month : Nat
  deriving DecidableEq, Repr

/-- `ProfileAdditionalInfo` (user.rs).  `joined : DateTime<Utc>` is modelled
as the integer timestamp produced by the (parameterised) date parser. -/
structure ProfileAdditionalInfo where
  affiliation : Option UserAffiliation
  profession : Option Professional
  location : Option String
  website : Option String
  joined : Int
  birthday : Option Birthday
  deriving DecidableEq, Repr

/-- `User` (user.rs): the normalized profile snapshot. -/
structure User where
  id : Nat
  avatar : Avatar
  name : ProfileName
  profile_stats : ProfileStats
  additional_info : ProfileAdditionalInfo
  bio : String
  pinned_tweet_id : Option Nat
  is_sensitive : Bool
  is_protected : Bool
  deriving DecidableEq, Repr

/-- `Legacy` (user.rs): the raw per-user payload block.  Fields that are
declared in the source but never read by `User::new` (`default_profile`,
`default_profile_image`, `has_custom_timelines`, `is_translator`,
`listed_count`, `normal_followers_count`, `profile_interstitial_type`,
`withheld_in_countries`) are omitted; they cannot influence any embedded
operation. -/
structure Legacy where
  created : String
  description : String
  favourites_count : Nat
  followers_count : Nat
  friends_count : Nat
  location : String
  media_count : Nat
  name : String
  pinned_tweet_ids_str : List String
  possibly_sensitive : Bool
  profile_banner_url : String
  profile_image_url_https : String
  «protected» : Bool
  screen_name : String
  statuses_count : Nat
  url : String
  verified : Bool
  deriving DecidableEq, Repr

/-- `LegacyExtendedProfile` (user.rs). -/
structure LegacyExtendedProfile where
  birthdate : Option Birthday
  deriving DecidableEq, Repr

/-- `Badge` (user.rs). -/
structure Badge where
  url : String
  deriving DecidableEq, Repr

/-- `WrapperUrl` (user.rs). -/
structure WrapperUrl where
  url : String
  deriving DecidableEq, Repr

/-- `AffiliatesLabel` (user.rs). -/
structure AffiliatesLabel where
  badge : Badge
  url : WrapperUrl
  description : String
  deriving DecidableEq, Repr

/-- `Affiliates` (user.rs). -/
structure Affiliates where
  label : AffiliatesLabel
  deriving DecidableEq, Repr

/-- `UnavailableMessage` (user.rs). -/
structure UnavailableMessage where
  rtl : Bool
  text : String
  deriving DecidableEq, Repr

/-- `UserUnavailable` (user.rs). -/
structure UserUnavailable where
  unavailable_message : UnavailableMessage
  reason : String
  deriving DecidableEq, Repr

/-- `AvailableUser` (user.rs). -/
structure AvailableUser where
  id : String
  rest_id : String
  has_nft_avatar : Bool
  is_blue_verified : Bool
  super_follow_eligible : Bool
  is_profile_translatable : Bool
  legacy : Legacy
  legacy_extended_profile : Option LegacyExtendedProfile
  professional : Option Professional
  affiliates_highlighted_label : Option Affiliates
  deriving DecidableEq, Repr

/-- `TwtResult` (user.rs). -/
inductive TwtResult where
  | UserUnavailable (u : UserUnavailable)
  | User (u : AvailableUser)
  deriving DecidableEq, Repr

/-- `Usr` (user.rs). -/
structure Usr where
  result : TwtResult
  deriving DecidableEq, Repr

/-- `Data` (user.rs). -/
structure Data where
  user : Usr
  deriving DecidableEq, Repr

/-- `UserRequest` (user.rs): the decoded user-lookup response envelope. -/
structure UserRequest where
  errors : List Error
  data : Data
  deriving DecidableEq, Repr

/-- Embeds `User::new` (user.rs, lines 31-118), with the two external
collaborators as parameters: `websiteFetch` stands for
`scraper.api_req_raw_request(...)` followed by `.url().to_string()` (the
redirect-resolving fetch of `user.legacy.url`), and `parseJoinDate` stands
for `chrono::DateTime::parse_from_str(_, JOINDATE_PARSE_STR)` (returning the
raw chrono error message on failure, which the code maps into
`TwitterBadTimeParse`).  The control flow — including the guard
`if !user.rest_id.is_empty() || user.rest_id == "0"` exactly as written in
the source — is reproduced literally. -/
def User.new (websiteFetch : String → Except TwtScrapeError String)
    (parseJoinDate : String → Except String Int)
    (req : UserRequest) : Except TwtScrapeError User := do
  -- check for errors
  match req.errors.head? with
  | some why =>
    if why.code ≠ TWITTER_IGNORE_ERROR_CODE then
      throw (TwtScrapeError.TwitterJSONError why.code why.message)
  | none => pure ()
  match req.data.user.result with
  | TwtResult.User user =>
    if !user.rest_id.isEmpty || user.rest_id == "0" then
      throw (TwtScrapeError.TwitterBadRestId user.rest_id)
    let website ← do
      let redirect ← websiteFetch user.legacy.url
      pure (asOption redirect [""])
    let joined ←
      match parseJoinDate user.legacy.created with
      | Except.error why => throw (TwtScrapeError.TwitterBadTimeParse why)
      | Except.ok dt => pure dt
    let birthday :=
      match user.legacy_extended_profile with
      | some lep => lep.birthdate
      | none => none
    let pinned :=
      match user.legacy.pinned_tweet_ids_str with
      | [] => none
      | x :: _ => parseU64 x
    let affiliation :=
      match user.affiliates_highlighted_label with
      | some affiliate => some
          { badge := affiliate.label.badge.url
            url := affiliate.label.url.url
            description := affiliate.label.description : UserAffiliation }
      | none => none
    let id ←
      match parseU64 user.rest_id with
      | some n => pure n
      | none => throw (TwtScrapeError.IntParseFailure user.rest_id)
    pure
      { id := id
        avatar :=
          { url := user.legacy.profile_image_url_https
            banner := user.legacy.profile_banner_url
            is_nft := user.has_nft_avatar }
        name :=
          { display := user.legacy.screen_name
            handle := user.legacy.name }
        profile_stats :=
          { tweets := user.legacy.statuses_count
            following := user.legacy.friends_count
            followers := user.legacy.followers_count
            likes := user.legacy.favourites_count
            media_tweets := user.legacy.media_count
            verified := user.legacy.verified
            blue_verified := user.is_blue_verified }
        additional_info :=
          { affiliation := affiliation
            profession := user.professional
            location := asOption user.legacy.location ["", "0"]
            website := website
            joined := joined
            birthday := birthday }
        bio := user.legacy.description
        pinned_tweet_id := pinned
        is_sensitive := user.legacy.possibly_sensitive
        is_protected := user.legacy.«protected» }
  | TwtResult.UserUnavailable _ => throw TwtScrapeError.UserResultError

/-! ## Timeline data model (`usertweets.rs`; types from `tweet.rs` modelled
from the spec where noted) -/

/-- Modelled from the spec: `Tweet` (declared in `tweet.rs`, which is not
under `src/`) is the full tweet entity stored in the Dedup Store.  Per §3 the
store is "keyed by the entities' own equality/identity (platform-assigned
ids)", so the entity is represented by its platform id (`rest_id`); set
membership is decided by this identity. -/
structure Tweet where
  rest_id : String
  deriving DecidableEq, Repr

/-- Modelled from the spec: the user entity as deduplicated in the Dedup
Store.  The store is declared `users: HashSet<User>` in `usertweets.rs`,
which requires `Eq`/`Hash` impls for `User` that `user.rs` does not derive
(it derives only `Serialize`/`Deserialize`), so the stored entity's
identity lives in code that is not under `src/`.  Per spec §3 the store is
"keyed by the entities' own equality/identity (platform-assigned ids)", so,
exactly as for `Tweet` above, the stored user is represented by its
platform id; set membership is decided by this identity. -/
structure StoreUser where
  rest_id : String
  deriving DecidableEq, Repr

/-- Modelled from the spec: the payload of `TweetResults::Ok` (from
`tweet.rs`, not under `src/`).  The only field the code under `src/` reads
is `rest_id` (a string tweet id). -/
structure TweetData where
  rest_id : String
  deriving DecidableEq, Repr

/-- Modelled from the spec: `TweetResults` (from `tweet.rs`, not under
`src/`): either a resolved tweet carrying a `rest_id`, or a `Tombstone`
placeholder "with no further payload of interest" (§3). -/
inductive TweetResults where
  | Ok (t : TweetData)
  | Tombstone
  deriving DecidableEq, Repr

/-- Modelled from the spec: `TweetItemContent` (from `tweet.rs`, not under
`src/`); the code under `src/` reads its `tweet_results` field. -/
structure TweetItemContent where
  tweet_results : TweetResults
  deriving DecidableEq, Repr

/-- Modelled from the spec: `TweetEnt` (from `tweet.rs`, not under `src/`);
the code under `src/` reads its `item_content.tweet_results`. -/
structure TweetEnt where
  item_content : TweetItemContent
  deriving DecidableEq, Repr

/-- Modelled from the spec: the item content of a `Cursor` entry (from
`tweet.rs`, not under `src/`): a cursor-type label and an opaque
continuation value, read by `filter_cursor` as
`c.content.item_content.cursor_type` / `.value`. -/
structure CursorItemContent where
  cursor_type : String
  value : String
  deriving DecidableEq, Repr

/-- Modelled from the spec: the content wrapper of a `Cursor` entry. -/
structure CursorContent where
  item_content : CursorItemContent
  deriving DecidableEq, Repr

/-- Modelled from the spec: `Cursor` (from `tweet.rs`, not under `src/`). -/
structure Cursor where
  content : CursorContent
  deriving DecidableEq, Repr

/-- `HCItem` (usertweets.rs). -/
structure HCItem where
  item : TweetItemContent
  deriving DecidableEq, Repr

/-- `HCConversationMeta` (usertweets.rs). -/
structure HCConversationMeta where
  all_tweet_ids : List String
  enable_deduplication : Bool
  deriving DecidableEq, Repr

/-- `HomeConversationContent` (usertweets.rs). -/
structure HomeConversationContent where
  items : List HCItem
  metadata : HCConversationMeta
  deriving DecidableEq, Repr

/-- `HomeConversation` (usertweets.rs). -/
structure HomeConversation where
  content : HomeConversationContent
  deriving DecidableEq, Repr

/-- `Entry` (usertweets.rs): the closed timeline-entry variant set. -/
inductive Entry where
  | HomeConversation (h : HomeConversation)
  | Tweet (t : TweetEnt)
  | Cursor (c : Cursor)
  deriving DecidableEq, Repr

/-- `TimelineAddEntry` (usertweets.rs). -/
structure TimelineAddEntry where
  entries : List Entry
  deriving DecidableEq, Repr

/-- `TlPinContent` (usertweets.rs). -/
structure TlPinContent where
  item_content : TweetItemContent
  deriving DecidableEq, Repr

/-- `TlPinEntryEntry` (usertweets.rs). -/
structure TlPinEntryEntry where
  content : TlPinContent
  deriving DecidableEq, Repr

/-- `TimelinePinEntry` (usertweets.rs). -/
structure TimelinePinEntry where
  entry : TlPinEntryEntry
  deriving DecidableEq, Repr

/-- `Instruction` (usertweets.rs). -/
inductive Instruction where
  | TimelineClearCache
  | TimelineAddEntries (a : TimelineAddEntry)
  | TimelinePinEntry (p : TimelinePinEntry)
  deriving DecidableEq, Repr

/-- `Timeline` (usertweets.rs). -/
structure Timeline where
  instructions : List Instruction
  deriving DecidableEq, Repr

/-- `TimelineV2` (usertweets.rs). -/
structure TimelineV2 where
  timeline : Timeline
  deriving DecidableEq, Repr

/-- `Reslt` (usertweets.rs). -/
structure Reslt where
  typename : String
  timeline_v2 : TimelineV2
  deriving DecidableEq, Repr

/-- `UserRslt` (usertweets.rs). -/
structure UserRslt where
  result : Reslt
  deriving DecidableEq, Repr

/-- `UserTARData` (usertweets.rs). -/
structure UserTARData where
  user : UserRslt
  deriving DecidableEq, Repr

/-- `UserTweetAndRepliesRequest` (usertweets.rs): one decoded timeline
page — the error envelope plus the nested instruction list. -/
structure UserTweetAndRepliesRequest where
  errors : List Error
  data : UserTARData
  deriving DecidableEq, Repr

/-- `UserTweetsAndReplies` (usertweets.rs): the Dedup Store — two sets,
`users` and `tweets` (`HashSet` in the source, modelled as `Finset`, which is
exactly a set deduplicated by the element's own decidable equality; the
elements' identity is the platform-assigned id, see `Tweet` and
`StoreUser`). -/
structure UserTweetsAndReplies where
  users : Finset StoreUser
  tweets : Finset Tweet
  deriving DecidableEq

/-! ## Envelope filter, cursor lookup, pagination walker (`usertweets.rs`) -/

/-- Embeds `UserTweetAndRepliesRequest::json_request_filter_errors`
(usertweets.rs, lines 216-223): inspect only the first envelope error; code
37 is ignorable, any other code fails with `TwitterJSONError(code, message)`. -/
def UserTweetAndRepliesRequest.json_request_filter_errors
    (r : UserTweetAndRepliesRequest) : Except TwtScrapeError Unit :=
  match r.errors.head? with
  | some why =>
    if why.code ≠ 37 then
      Except.error (TwtScrapeError.TwitterJSONError why.code why.message)
    else Except.ok ()
  | none => Except.ok ()

/-- Embeds `UserTweetAndRepliesRequest::filter_cursor` (usertweets.rs, lines
225-239): walk the instructions in order; inside each add-entries
instruction walk the entries in order; return the value of the first
`Cursor` entry whose `cursor_type` starts with `"Bottom"` (`findSome?` is
the early-returning first-match search). -/
def UserTweetAndRepliesRequest.filter_cursor
    (r : UserTweetAndRepliesRequest) : Option String :=
  r.data.user.result.timeline_v2.timeline.instructions.findSome? fun inst =>
    match inst with
    | Instruction.TimelineAddEntries add =>
      add.entries.findSome? fun entry =>
        match entry with
        | Entry.Cursor c =>
          if strStartsWith c.content.item_content.cursor_type "Bottom" then
            some c.content.item_content.value
          else none
        | _ => none
    | _ => none

/-- The spec's description of the continuation-cursor lookup (§4.3 / §8):
the values of all Cursor entries inside add-entries instructions whose type
label denotes the bottom boundary, listed in instruction and entry order.
The lookup should yield the first of these.  Stated from the spec's words,
to be compared with `filter_cursor` above. -/
def specBottomCursorValues (r : UserTweetAndRepliesRequest) : List String :=
  ((r.data.user.result.timeline_v2.timeline.instructions.map fun inst =>
    match inst with
    | Instruction.TimelineAddEntries add => add.entries
    | _ => []).flatten).filterMap fun entry =>
      match entry with
      | Entry.Cursor c =>
        if strStartsWith c.content.item_content.cursor_type "Bottom" then
          some c.content.item_content.value
        else none
      | _ => none

/-- Embeds the loop body state flow of `UserTweetAndRepliesRequest::scroll`
(usertweets.rs, lines 242-274).  `fetch` stands for
`scraper.api_req::<UserTweetAndRepliesRequest>(...)` on the
cursor-parameterised timeline URL.  The outer `Option` is a fuel bound on
the unbounded `loop` (`none` = fuel exhausted before the loop broke); the
source loop carries `cursor_counter`, `break_on_next` and the `VecDeque`
of pages (`push_front`, so the accumulator is kept in front-first order).
The second component of the result is the observation log of cursors
fetched, in fetch order. -/
def scrollAux (fetch : String → Except TwtScrapeError UserTweetAndRepliesRequest) :
    Nat → String → Bool → List UserTweetAndRepliesRequest → List String →
    Option (Except TwtScrapeError (List UserTweetAndRepliesRequest) × List String)
  | 0, _, _, _, _ => none
  | fuel + 1, cursor_counter, break_on_next, requests, log =>
    let log := log ++ [cursor_counter]
    match fetch cursor_counter with
    | Except.error e => some (Except.error e, log)
    | Except.ok scrolled_up_request =>
      match scrolled_up_request.json_request_filter_errors with
      | Except.error e => some (Except.error e, log)
      | Except.ok _ =>
        let requests := scrolled_up_request :: requests
        if break_on_next then some (Except.ok requests, log)
        else
          match scrolled_up_request.filter_cursor with
          | some bottom => scrollAux fetch fuel bottom false requests log
          | none => scrollAux fetch fuel cursor_counter true requests log

/-- Embeds `UserTweetAndRepliesRequest::scroll` (usertweets.rs): start the
loop on `first_cursor` with `break_on_next = false` and empty accumulator. -/
def UserTweetAndRepliesRequest.scroll
    (fetch : String → Except TwtScrapeError UserTweetAndRepliesRequest)
    (fuel : Nat) (first_cursor : String) :
    Option (Except TwtScrapeError (List UserTweetAndRepliesRequest) × List String) :=
  scrollAux fetch fuel first_cursor false [] []

/-! ## Crawl orchestrator (`usertweets.rs`, `scroll_user_timeline`) -/

/-- The accumulating state of the orchestrator's main loop: the two
`HashSet`s (`tweets`, `users`) plus an observation log of the tweet ids for
which `Tweet::parse_thread` was invoked, in invocation order. -/
structure ExpState where
  tweets : Finset Tweet
  users : Finset StoreUser
  calls : List String
  deriving DecidableEq

/-- The type of the external thread expander `Tweet::parse_thread`
(`tweet.rs`, not under `src/`; per spec §9 a narrow capability interface:
"given a tweet id, return its full thread as (tweets, users) or fail"). -/
def ParseThread : Type :=
  String → Except TwtScrapeError (Finset Tweet × Finset StoreUser)

/-- Embeds the per-entry body of the `for entry in add.entries` loop of
`scroll_user_timeline` (usertweets.rs, lines 95-187), literally following
the source's `continue`s:

* `HomeConversation`: take `first`/`last` of the items and `equal = first
  == last`; if either is absent, warn and continue.  If the FIRST item is a
  `Tombstone`, `continue` — the whole entry is skipped, including the last
  item.  Otherwise invoke the expander on the first item's `rest_id`
  (failure: warn and `continue`, which also skips the last item), merge, and
  if `!equal` repeat for the last item (a last-item `Tombstone` or failure
  only skips that second half).
* `Tweet`: expander on its `rest_id` unless `Tombstone`; failure warns and
  continues.
* `Cursor`: `continue`.

Expander invocations are recorded in `calls`; `HashSet::append` (move-merge
of the returned sets) is `Finset` union. -/
def processEntry (parse_thread : ParseThread) (st : ExpState) (entry : Entry) :
    ExpState :=
  match entry with
  | Entry.HomeConversation homeconvo =>
    let first := homeconvo.content.items.head?
    let last := homeconvo.content.items.getLast?
    let equal := first = last
    match first, last with
    | some f, some l =>
      match f.item.tweet_results with
      | TweetResults.Tombstone => st
      | TweetResults.Ok t =>
        let firstid := t.rest_id
        let st := { st with calls := st.calls ++ [firstid] }
        match parse_thread firstid with
        | Except.error _ => st
        | Except.ok (twts, usrs) =>
          let st := { st with tweets := st.tweets ∪ twts, users := st.users ∪ usrs }
          if ¬ equal then
            match l.item.tweet_results with
            | TweetResults.Tombstone => st
            | TweetResults.Ok t2 =>
              let lastid := t2.rest_id
              let st := { st with calls := st.calls ++ [lastid] }
              match parse_thread lastid with
              | Except.error _ => st
              | Except.ok (twts2, usrs2) =>
                { st with tweets := st.tweets ∪ twts2, users := st.users ∪ usrs2 }
          else st
    | _, _ => st
  | Entry.Tweet tweet =>
    match tweet.item_content.tweet_results with
    | TweetResults.Tombstone => st
    | TweetResults.Ok t =>
      let firstid := t.rest_id
      let st := { st with calls := st.calls ++ [firstid] }
      match parse_thread firstid with
      | Except.error _ => st
      | Except.ok (twts, usrs) =>
        { st with tweets := st.tweets ∪ twts, users := st.users ∪ usrs }
  | Entry.Cursor _ => st

/-- The `for inst in ... instructions` body: only
`Instruction::TimelineAddEntries` is expanded. -/
def processInstruction (parse_thread : ParseThread) (st : ExpState)
    (inst : Instruction) : ExpState :=
  match inst with
  | Instruction.TimelineAddEntries add => add.entries.foldl (processEntry parse_thread) st
  | _ => st

/-- The `for request in timelines_requests` body. -/
def processRequest (parse_thread : ParseThread) (st : ExpState)
    (request : UserTweetAndRepliesRequest) : ExpState :=
  request.data.user.result.timeline_v2.timeline.instructions.foldl
    (processInstruction parse_thread) st

/-- The whole main loop of `scroll_user_timeline`, starting from the two
freshly created sets (`HashSet::with_capacity` is empty regardless of the
capacity hint, which the spec calls "purely an optimization, never a
correctness constraint"). -/
def processRequests (parse_thread : ParseThread)
    (timelines_requests : List UserTweetAndRepliesRequest) : ExpState :=
  timelines_requests.foldl (processRequest parse_thread)
    { tweets := ∅, users := ∅, calls := [] }

/-- The external collaborators of one crawl: `fetch` is the timeline
endpoint (`none` = first page, no cursor parameter; `some c` = the
cursor-parameterised URL), `parse_thread` the thread expander. -/
structure CrawlEnv where
  fetch : Option String → Except TwtScrapeError UserTweetAndRepliesRequest
  parse_thread : ParseThread

/-- Embeds `UserTweetsAndReplies::scroll_user_timeline` (usertweets.rs,
lines 53-194).  `userResult` stands for the already-awaited
`User::new(scraper, handle)` (propagated by `?`).  The second component of
the result is the observation log of timeline fetches performed (`none` =
the cursor-less first-page request), in order; the outer `Option` is the
walker's fuel bound.  Control flow of the source: first page fetched, its
`filter_cursor` taken; only when a cursor is present is the walker invoked
and its pages appended to the (initially empty) `timelines_requests`; the
first page itself is never appended; the main loop then folds over
`timelines_requests`; the final store is returned by value. -/
def UserTweetsAndReplies.scroll_user_timeline (env : CrawlEnv)
    (userResult : Except TwtScrapeError User) (fuel : Nat) :
    Option (Except TwtScrapeError UserTweetsAndReplies × List (Option String)) :=
  match userResult with
  | Except.error e => some (Except.error e, [])
  | Except.ok _user =>
    match env.fetch none with
    | Except.error e => some (Except.error e, [none])
    | Except.ok first_request =>
      match first_request.filter_cursor with
      | some fc =>
        match UserTweetAndRepliesRequest.scroll (fun c => env.fetch (some c)) fuel fc with
        | none => none
        | some (Except.error e, log) => some (Except.error e, none :: log.map some)
        | some (Except.ok timelines_requests, log) =>
          let st := processRequests env.parse_thread timelines_requests
          some (Except.ok { users := st.users, tweets := st.tweets },
            none :: log.map some)
      | none =>
        let st := processRequests env.parse_thread []
        some (Except.ok { users := st.users, tweets := st.tweets }, [none])

/-! ## The manual `Deserialize` impl for `Entry` (usertweets.rs, lines
449-547) -/

/-- The decode errors produced by the `serde` visitor code: `unknownField`
from the `Field` deserializer, `unknownVariant`/`missingField` from
`EntryVisitor::visit_map`, `invalidType` for a value that does not decode at
the requested type. -/
inductive DeError where
  | unknownField (field : String)
  | unknownVariant (variant : String)
  | missingField (field : String)
  | invalidType
  deriving DecidableEq, Repr

/-- `Field` (the key enum inside the `Deserialize` impl; named `EntryKey`
here because `Field` is taken by the algebra hierarchy). -/
inductive EntryKey where
  | EntryId
  | SortId
  | Content
  deriving DecidableEq, Repr

/-- `FieldVisitor::visit_str`: map a key string to `Field`, any other key is
`unknown_field`. -/
def decodeField (value : String) : Except DeError EntryKey :=
  match value with
  | "entryId" => Except.ok EntryKey.EntryId
  | "sortId" => Except.ok EntryKey.SortId
  | "content" => Except.ok EntryKey.Content
  | _ => Except.error (DeError.unknownField value)

/-- A JSON value as seen through `map.next_value::<T>()`: what it decodes to
at each of the target types the visitor requests.  A `content` object may be
decodable as a tweet payload, a conversation payload, a cursor payload, any
combination, or none. -/
structure JContent where
  asTweet : Option TweetEnt
  asConvo : Option HomeConversation
  asCursor : Option Cursor

/-- A field value in the entry object: a JSON string or a nested object. -/
inductive JVal where
  | str (s : String)
  | obj (c : JContent)

/-- `map.next_value::<String>()`. -/
def JVal.asString : JVal → Except DeError String
  | JVal.str s => Except.ok s
  | JVal.obj _ => Except.error DeError.invalidType

/-- `map.next_value::<TweetEnt>()`. -/
def JVal.nextTweet : JVal → Except DeError TweetEnt
  | JVal.obj c =>
    match c.asTweet with
    | some t => Except.ok t
    | none => Except.error DeError.invalidType
  | JVal.str _ => Except.error DeError.invalidType

/-- `map.next_value::<HomeConversation>()`. -/
def JVal.nextConvo : JVal → Except DeError HomeConversation
  | JVal.obj c =>
    match c.asConvo with
    | some h => Except.ok h
    | none => Except.error DeError.invalidType
  | JVal.str _ => Except.error DeError.invalidType

/-- `map.next_value::<Cursor>()`. -/
def JVal.nextCursor : JVal → Except DeError Cursor
  | JVal.obj c =>
    match c.asCursor with
    | some cu => Except.ok cu
    | none => Except.error DeError.invalidType
  | JVal.str _ => Except.error DeError.invalidType

/-- Embeds `EntryVisitor::visit_map` (usertweets.rs, lines 503-541) with its
control flow exactly as written.  The map is a list of (key, value) pairs;
`next_key` errors (`unknown_field`) and `next_value` errors (via `?`)
propagate and return.  Crucially, in the `Field::Content` arm the source
CONSTRUCTS `Ok(Entry::…(map.next_value()?))` — or, for an unrecognized or
absent identifier, `Err(de::Error::unknown_variant(…))` — but never
`return`s it: the constructed `Result` is dropped (only the `?` inside it
can return), the `while` loop continues, and the function falls through to
`Err(de::Error::missing_field("content"))` after the last key. -/
def entryVisitMap : List (String × JVal) → Option String → Option String →
    Except DeError Entry
  | [], _, _ => Except.error (DeError.missingField "content")
  | (key, v) :: rest, entry_id, sort_id =>
    match decodeField key with
    | Except.error e => Except.error e
    | Except.ok EntryKey.EntryId =>
      match v.asString with
      | Except.error e => Except.error e
      | Except.ok s => entryVisitMap rest (some s) sort_id
    | Except.ok EntryKey.SortId =>
      match v.asString with
      | Except.error e => Except.error e
      | Except.ok s => entryVisitMap rest entry_id (some s)
    | Except.ok EntryKey.Content =>
      match entry_id with
      | some entry =>
        if strStartsWith entry "tweet-" then
          match v.nextTweet with
          | Except.error e => Except.error e
          | Except.ok _ => entryVisitMap rest entry_id sort_id
        else if strStartsWith entry "homeConversation-" then
          match v.nextConvo with
          | Except.error e => Except.error e
          | Except.ok _ => entryVisitMap rest entry_id sort_id
        else if strStartsWith entry "cursor-" then
          match v.nextCursor with
          | Except.error e => Except.error e
          | Except.ok _ => entryVisitMap rest entry_id sort_id
        else
          entryVisitMap rest entry_id sort_id
      | none => entryVisitMap rest entry_id sort_id

/-- `Entry`'s `Deserialize::deserialize` entry point: visit the map with no
identifier buffered yet. -/
def Entry.deserialize (fields : List (String × JVal)) : Except DeError Entry :=
  entryVisitMap fields none none

/-! ## Concrete fixtures used by the verification scenarios -/

/-- A concrete `Legacy` payload block (the profile of handle "alice"). -/
def lgW : Legacy :=
  { created := "Fri Oct 09 08:16:38 +0000 2015", description := "bio",
    favourites_count := 1, followers_count := 2, friends_count := 3,
    location := "", media_count := 4, name := "Alice",
    pinned_tweet_ids_str := [], possibly_sensitive := false,
    profile_banner_url := "b", profile_image_url_https := "a",
    «protected» := false, screen_name := "alice", statuses_count := 10,
    url := "https://t.co/x", verified := false }

/-- A concrete available-user payload with the given `rest_id`. -/
def auW (rid : String) : AvailableUser :=
  { id := "x", rest_id := rid, has_nft_avatar := false,
    is_blue_verified := false, super_follow_eligible := false,
    is_profile_translatable := false, legacy := lgW,
    legacy_extended_profile := none, professional := none,
    affiliates_highlighted_label := none }

/-- A concrete user-lookup response: empty error list, available user. -/
def reqW (rid : String) : UserRequest :=
  ⟨[], ⟨⟨TwtResult.User (auW rid)⟩⟩⟩

/-- A website-redirect collaborator that always resolves. -/
def wfW : String → Except TwtScrapeError String :=
  fun _ => Except.ok "https://example.com"

/-- A join-date parser collaborator that always succeeds. -/
def pjW : String → Except String Int :=
  fun _ => Except.ok 1444378598

/-- A concrete resolved profile (what `User::new` was meant to return for
the `reqW "42"` payload). -/
def userW : User :=
  { id := 42, avatar := ⟨"a", "b", false⟩, name := ⟨"alice", "Alice"⟩,
    profile_stats := ⟨10, 3, 2, 1, 4, false, false⟩,
    additional_info :=
      ⟨none, none, none, some "https://example.com", 1444378598, none⟩,
    bio := "bio", pinned_tweet_id := none, is_sensitive := false,
    is_protected := false }

/-- Build a cursor timeline entry with the given type label and value. -/
def curEntry (ty v : String) : Entry :=
  Entry.Cursor ⟨⟨⟨ty, v⟩⟩⟩

/-- Build a tweet timeline entry resolving to the tweet id `rid`. -/
def tweetEntry (rid : String) : Entry :=
  Entry.Tweet ⟨⟨TweetResults.Ok ⟨rid⟩⟩⟩

/-- Build a one-instruction timeline page from an entry list and an error
envelope. -/
def mkTimelinePage (entries : List Entry) (errs : List Error) :
    UserTweetAndRepliesRequest :=
  ⟨errs, ⟨⟨⟨"User", ⟨⟨[Instruction.TimelineAddEntries ⟨entries⟩]⟩⟩⟩⟩⟩⟩

/-- A thread expander fixture: tweet ids "1" and "2" belong to the same
thread whose only tweet is "9"; the id "err" fails with a transport error;
any other id `i` expands to the single tweet `i` and no users. -/
def ptW : ParseThread := fun i =>
  if i = "1" ∨ i = "2" then Except.ok ({⟨"9"⟩}, ∅)
  else if i = "err" then Except.error (TwtScrapeError.Transport i)
  else Except.ok ({⟨i⟩}, ∅)

/-- The tombstone tweet-entry payload. -/
def tombTweetEnt : TweetEnt := ⟨⟨TweetResults.Tombstone⟩⟩

/-- A content value decodable (only) as a tweet payload that is a
Tombstone placeholder. -/
def jcTomb : JContent := ⟨some tombTweetEnt, none, none⟩

/-- Scripted pages for the pagination-walker scenario: the fetch-order list
of pages the walker retrieves when started on page `j` of a script whose
last page is `k` — pages `j, j+1, …, k` followed by the one-step-lookahead
re-fetch of page `k`. -/
def scriptPages (pg : Nat → UserTweetAndRepliesRequest) (j k : Nat) :
    List UserTweetAndRepliesRequest :=
  (List.range' j (k + 1 - j)).map pg ++ [pg k]

/-- The cursors requested by the scripted walk, in fetch order (the final
lookahead re-uses the unchanged cursor of page `k`). -/
def scriptCursors (cur : Nat → String) (j k : Nat) : List String :=
  (List.range' j (k + 1 - j)).map cur ++ [cur k]

/-! ## Helper lemmas -/

/-- The early-returning first-match search equals the head of the list of
all matches. -/
theorem findSome_eq_head_filterMap {α β : Type} (f : α → Option β) :
    ∀ l : List α, l.findSome? f = (l.filterMap f).head? := by
  intro l
  induction l with
  | nil => rfl
  | cons a t ih =>
    cases h : f a with
    | none =>
      rw [List.findSome?_cons, List.filterMap_cons, h]
      exact ih
    | some b =>
      rw [List.findSome?_cons, List.filterMap_cons, h]
      rfl

/-- Nested first-match search over a list of lists equals the head of the
flattened match list. -/
theorem findSome_flatten_eq_head {α β γ : Type} (g : α → List β)
    (h : β → Option γ) :
    ∀ l : List α,
      l.findSome? (fun a => (g a).findSome? h) =
        ((l.map g).flatten.filterMap h).head? := by
  intro l
  induction l with
  | nil => rfl
  | cons a t ih =>
    rw [List.map_cons, List.flatten_cons, List.filterMap_append,
      List.head?_append, List.findSome?_cons]
    rw [findSome_eq_head_filterMap]
    cases hh : ((g a).filterMap h).head? with
    | none => simpa [hh] using ih
    | some v => simp [hh]

/-! ## Claim theorems -/

/-- **C1** (status: code_bug).  The claim — `User::new` succeeds, with `id`
the parsed integer, on every available-user payload whose `rest_id` is a
non-empty numeric string other than `"0"`, and fails with the
malformed-identity error exactly when `rest_id` is empty or `"0"` — is what
the spec states, but the source guard reads
`if !user.rest_id.is_empty() || user.rest_id == "0"`, which is inverted:
evaluated on the concrete payloads below, construction FAILS with
`TwitterBadRestId("42")` on the valid `rest_id = "42"`, and on the empty
`rest_id` it passes the guard and dies later in `rest_id.parse::<u64>()`
with a parse error instead of the malformed-identity error.  (Only the
`"0"` case behaves as specified.) -/
theorem userNew_rest_id_guard_inverted :
    User.new wfW pjW (reqW "42") =
      Except.error (TwtScrapeError.TwitterBadRestId "42") ∧
    User.new wfW pjW (reqW "0") =
      Except.error (TwtScrapeError.TwitterBadRestId "0") ∧
    User.new wfW pjW (reqW "") =
      Except.error (TwtScrapeError.IntParseFailure "") := by
  refine ⟨rfl, rfl, rfl⟩

/-- **C3** (status: code_bug).  The content value decodes successfully as a
tweet payload (a Tombstone placeholder), yet `Entry` deserialization does
NOT return `Ok(Entry::Tweet(..))`: the source constructs that `Ok` value
without `return`ing it, so the visitor falls through to the generic
`missing_field("content")` decode error — exactly the latent defect the
spec rules out. -/
theorem entry_deserialize_tweet_tombstone_falls_through :
    (JVal.obj jcTomb).nextTweet = Except.ok tombTweetEnt ∧
    Entry.deserialize [("entryId", JVal.str "tweet-1"), ("content", JVal.obj jcTomb)] =
      Except.error (DeError.missingField "content") := by
  refine ⟨rfl, rfl⟩

/-- **C4** (status: code_bug).  For an entry identifier with an
unrecognized prefix (`"foo-1"`), the source constructs
`Err(de::Error::unknown_variant("foo-1", ..))` — the hard error naming the
offending identifier that the claim (and the spec) require — but drops it
without `return`ing, so deserialization instead fails with the generic
`missing_field("content")` error, which does not name the identifier. -/
theorem entry_deserialize_unknown_prefix_falls_through :
    Entry.deserialize [("entryId", JVal.str "foo-1"), ("content", JVal.obj jcTomb)] =
      Except.error (DeError.missingField "content") ∧
    DeError.missingField "content" ≠ DeError.unknownVariant "foo-1" := by
  refine ⟨rfl, by decide⟩

/-- **C5** (status: confirmed).  `filter_cursor` returns exactly the head of
`specBottomCursorValues` — the values of the Cursor entries whose type
label starts with `"Bottom"`, collected over add-entries instructions in
instruction and entry order.  Hence: the first Bottom-labelled cursor's
value is returned; cursor entries with any other label are never returned
(they are filtered out of the list); and when no Bottom-labelled cursor
entry exists the lookup returns `none`. -/
theorem filter_cursor_eq_first_bottom (r : UserTweetAndRepliesRequest) :
    r.filter_cursor = (specBottomCursorValues r).head? := by
  unfold UserTweetAndRepliesRequest.filter_cursor specBottomCursorValues
  rw [← findSome_flatten_eq_head]
  congr 1
  funext inst
  cases inst <;> rfl

/-- **C2** (status: confirmed).  The envelope filter: an empty error list
succeeds; a first error with code 37 (the designated ignorable code of both
`User::new` and `json_request_filter_errors`) succeeds, and such a page is
still consumed by the walker (it appears in the walker's output); any other
first-error code fails with `TwitterJSONError` carrying exactly that
error's code and message — shown both for `User::new`'s inline check and
for `json_request_filter_errors`. -/
theorem envelope_filter_contract :
    (∀ wf pj (req : UserRequest) e rest, req.errors = e :: rest → e.code ≠ 37 →
      User.new wf pj req =
        Except.error (TwtScrapeError.TwitterJSONError e.code e.message)) ∧
    (∀ r : UserTweetAndRepliesRequest, r.errors = [] →
      r.json_request_filter_errors = Except.ok ()) ∧
    (∀ (r : UserTweetAndRepliesRequest) e rest, r.errors = e :: rest → e.code = 37 →
      r.json_request_filter_errors = Except.ok ()) ∧
    (∀ (r : UserTweetAndRepliesRequest) e rest, r.errors = e :: rest → e.code ≠ 37 →
      r.json_request_filter_errors =
        Except.error (TwtScrapeError.TwitterJSONError e.code e.message)) ∧
    (∀ fetch c (page : UserTweetAndRepliesRequest) e rest,
      fetch c = Except.ok page → page.errors = e :: rest → e.code = 37 →
      page.filter_cursor = none →
      UserTweetAndRepliesRequest.scroll fetch 2 c =
        some (Except.ok [page, page], [c, c])) := by
  refine ⟨?_, ?_, ?_, ?_, ?_⟩
  · intro wf pj req e rest herr hne
    simp only [User.new, herr, hne, TWITTER_IGNORE_ERROR_CODE, List.head?_cons,
      ne_eq, not_false_eq_true, if_true, ite_true]
    rfl
  · intro r h
    simp [UserTweetAndRepliesRequest.json_request_filter_errors, h]
  · intro r e rest h hc
    simp [UserTweetAndRepliesRequest.json_request_filter_errors, h, hc]
  · intro r e rest h hc
    simp [UserTweetAndRepliesRequest.json_request_filter_errors, h, hc]
  · intro fetch c page e rest hf herr hc hcur
    have hok : page.json_request_filter_errors = Except.ok () := by
      simp [UserTweetAndRepliesRequest.json_request_filter_errors, herr, hc]
    unfold UserTweetAndRepliesRequest.scroll
    unfold scrollAux
    rw [hf]
    simp only [hok]
    unfold scrollAux
    rw [hf]
    simp [hok, hcur]

/-- A timeline page whose only envelope error has the ignorable code 37. -/
def pageE37 : UserTweetAndRepliesRequest := mkTimelinePage [] [⟨"x", 37⟩]

/-- A timeline page whose only envelope error has the fatal code 99. -/
def pageE99 : UserTweetAndRepliesRequest := mkTimelinePage [] [⟨"rate limited", 99⟩]

/-- A user-lookup response whose envelope carries the fatal code 99. -/
def reqU99 : UserRequest :=
  ⟨[⟨"rate limited", 99⟩], ⟨⟨TwtResult.User (auW "42")⟩⟩⟩

/-- Witness for **C2**: the contract evaluated at concrete envelopes — the
code-99 lookup aborts with `TwitterJSONError 99`, the empty and code-37
envelopes pass, and a code-37 page flows through the walker into its
output. -/
theorem envelope_filter_contract_witness :
    User.new wfW pjW reqU99 =
      Except.error (TwtScrapeError.TwitterJSONError 99 "rate limited") ∧
    (mkTimelinePage [] []).json_request_filter_errors = Except.ok () ∧
    pageE37.json_request_filter_errors = Except.ok () ∧
    pageE99.json_request_filter_errors =
      Except.error (TwtScrapeError.TwitterJSONError 99 "rate limited") ∧
    UserTweetAndRepliesRequest.scroll (fun _ => Except.ok pageE37) 2 "c0" =
      some (Except.ok [pageE37, pageE37], ["c0", "c0"]) :=
  ⟨envelope_filter_contract.1 wfW pjW reqU99 ⟨"rate limited", 99⟩ [] rfl (by decide),
   envelope_filter_contract.2.1 (mkTimelinePage [] []) rfl,
   envelope_filter_contract.2.2.1 pageE37 ⟨"x", 37⟩ [] rfl rfl,
   envelope_filter_contract.2.2.2.1 pageE99 ⟨"rate limited", 99⟩ [] rfl (by decide),
   envelope_filter_contract.2.2.2.2 (fun _ => Except.ok pageE37) "c0" pageE37
     ⟨"x", 37⟩ [] rfl rfl rfl rfl⟩

/-- Peeling one page off the front of the scripted fetch-order page list. -/
theorem scriptPages_cons (pg : Nat → UserTweetAndRepliesRequest) (j k : Nat)
    (h : j < k) : scriptPages pg j k = pg j :: scriptPages pg (j + 1) k := by
  unfold scriptPages
  have h1 : k + 1 - j = (k + 1 - (j + 1)) + 1 := by omega
  rw [h1, List.range'_succ, List.map_cons, List.cons_append]

/-- Peeling one cursor off the front of the scripted fetch-order cursor
list. -/
theorem scriptCursors_cons (cur : Nat → String) (j k : Nat)
    (h : j < k) : scriptCursors cur j k = cur j :: scriptCursors cur (j + 1) k := by
  unfold scriptCursors
  have h1 : k + 1 - j = (k + 1 - (j + 1)) + 1 := by omega
  rw [h1, List.range'_succ, List.map_cons, List.cons_append]

/-- Invariant of the walker loop on a scripted sequence: started on page
`j = k - d` of a script whose pages `j, …, k-1` each carry a bottom cursor
to the next page and whose page `k` carries none, the loop with fuel
`d + 2` terminates and returns the pages it fetched in reverse fetch order
(on top of the accumulator), having requested exactly the script cursors
plus the final unchanged-cursor lookahead. -/
theorem scrollAux_script
    (fetch : String → Except TwtScrapeError UserTweetAndRepliesRequest)
    (pg : Nat → UserTweetAndRepliesRequest) (cur : Nat → String) (k : Nat)
    (hfetch : ∀ i, 1 ≤ i → i ≤ k → fetch (cur i) = Except.ok (pg i))
    (hok : ∀ i, 1 ≤ i → i ≤ k → (pg i).json_request_filter_errors = Except.ok ())
    (hcur : ∀ i, 1 ≤ i → i < k → (pg i).filter_cursor = some (cur (i + 1)))
    (hlast : (pg k).filter_cursor = none) :
    ∀ d, d < k → ∀ acc log,
      scrollAux fetch (d + 2) (cur (k - d)) false acc log =
        some (Except.ok ((scriptPages pg (k - d) k).reverse ++ acc),
          log ++ scriptCursors cur (k - d) k) := by
  intro d
  induction d with
  | zero =>
    intro hd acc log
    have hk1 : 1 ≤ k := hd
    simp only [Nat.sub_zero]
    unfold scrollAux
    rw [hfetch k hk1 (le_refl k)]
    simp only [hok k hk1 (le_refl k)]
    rw [if_neg (by simp)]
    rw [hlast]
    unfold scrollAux
    rw [hfetch k hk1 (le_refl k)]
    simp only [hok k hk1 (le_refl k)]
    rw [if_pos trivial]
    have hpp : scriptPages pg k k = [pg k, pg k] := by
      unfold scriptPages
      have : k + 1 - k = 1 := by omega
      rw [this, List.range'_one]
      rfl
    have hcc : scriptCursors cur k k = [cur k, cur k] := by
      unfold scriptCursors
      have : k + 1 - k = 1 := by omega
      rw [this, List.range'_one]
      rfl
    rw [hpp, hcc]
    simp
  | succ n ih =>
    intro hd acc log
    have hn : n < k := Nat.lt_of_succ_lt hd
    set j := k - (n + 1) with hj
    have hj1 : 1 ≤ j := by omega
    have hjk : j < k := by omega
    have hjn : j + 1 = k - n := by omega
    unfold scrollAux
    rw [hfetch j hj1 (le_of_lt hjk)]
    simp only [hok j hj1 (le_of_lt hjk)]
    rw [if_neg (by simp)]
    rw [hcur j hj1 hjk]
    rw [hjn]
    show scrollAux fetch (n + 2) (cur (k - n)) false (pg j :: acc) (log ++ [cur j]) =
      some (Except.ok ((scriptPages pg j k).reverse ++ acc),
        log ++ scriptCursors cur j k)
    rw [ih hn (pg j :: acc) (log ++ [cur j])]
    rw [scriptPages_cons pg j k hjk, scriptCursors_cons cur j k hjk, hjn]
    simp

/-- **C6** (status: confirmed).  On a scripted sequence where page `i`
yields a bottom cursor pointing to page `i+1` (for `1 ≤ i < k`) and page
`k` yields none, the walker started on the cursor of page 1 terminates
within fuel `k + 1`, returns the fetched pages in semantic-continuation
order — the reverse of fetch order (`push_front` accumulation) — and
performs exactly `k + 1` fetches: the `k` script pages plus the one-step
lookahead after the cursor-less page (which re-requests the unchanged
cursor; since that fetch also yields no cursor, the walker stops).  Here
`k` is the number of pages after the orchestrator's first page, so the
fetch count is (pages after the first) + 1. -/
theorem scroll_scripted_pagination (fetch : String → Except TwtScrapeError UserTweetAndRepliesRequest)
    (pg : Nat → UserTweetAndRepliesRequest) (cur : Nat → String) (k : Nat)
    (hk : 1 ≤ k)
    (hfetch : ∀ i, 1 ≤ i → i ≤ k → fetch (cur i) = Except.ok (pg i))
    (hok : ∀ i, 1 ≤ i → i ≤ k → (pg i).json_request_filter_errors = Except.ok ())
    (hcur : ∀ i, 1 ≤ i → i < k → (pg i).filter_cursor = some (cur (i + 1)))
    (hlast : (pg k).filter_cursor = none) :
    UserTweetAndRepliesRequest.scroll fetch (k + 1) (cur 1) =
      some (Except.ok (scriptPages pg 1 k).reverse, scriptCursors cur 1 k) ∧
    (scriptCursors cur 1 k).length = k + 1 := by
  constructor
  · have h := scrollAux_script fetch pg cur k hfetch hok hcur hlast (k - 1) (by omega) [] []
    have h1 : k - (k - 1) = 1 := by omega
    have h2 : k - 1 + 2 = k + 1 := by omega
    rw [h1, h2] at h
    simpa [UserTweetAndRepliesRequest.scroll] using h
  · simp [scriptCursors]

/-- Scripted page 1: carries a bottom cursor pointing at page 2. -/
def pW1 : UserTweetAndRepliesRequest := mkTimelinePage [curEntry "Bottom" "2"] []

/-- Scripted page 2: the final page, no bottom cursor. -/
def pW2 : UserTweetAndRepliesRequest := mkTimelinePage [] []

/-- The scripted cursor names: page `i` is requested with cursor `"i"`. -/
def curW : Nat → String := fun i => toString i

/-- The scripted pages by index. -/
def pgW : Nat → UserTweetAndRepliesRequest := fun i => if i = 1 then pW1 else pW2

/-- The scripted timeline endpoint. -/
def fetchW : String → Except TwtScrapeError UserTweetAndRepliesRequest :=
  fun s =>
    if s = "1" then Except.ok pW1
    else if s = "2" then Except.ok pW2
    else Except.error (TwtScrapeError.Transport s)

/-- Witness for **C6**: the two-page script — the walker performs 3 fetches
(cursors "1", "2", "2"), terminates within fuel 3, and returns the three
fetched pages in reverse fetch order. -/
theorem scroll_scripted_pagination_witness :
    UserTweetAndRepliesRequest.scroll fetchW (2 + 1) (curW 1) =
      some (Except.ok (scriptPages pgW 1 2).reverse, scriptCursors curW 1 2) ∧
    (scriptCursors curW 1 2).length = 2 + 1 :=
  scroll_scripted_pagination fetchW pgW curW 2 (by omega)
    (by intro i h1 h2; interval_cases i <;> rfl)
    (by intro i h1 h2; interval_cases i <;> rfl)
    (by intro i h1 h2; interval_cases i; rfl)
    rfl

/-- A first page with one resolvable tweet entry and no cursor. -/
def pageC7 : UserTweetAndRepliesRequest := mkTimelinePage [tweetEntry "7"] []

/-- Crawl collaborators for the C7 scenario: the first fetch returns
`pageC7`; any cursor fetch fails (it would prove a further fetch happened). -/
def envC7 : CrawlEnv :=
  ⟨fun o => match o with
    | none => Except.ok pageC7
    | some c => Except.error (TwtScrapeError.Transport c), ptW⟩

/-- **C7** (status: corrected; amended claim).  When the profile lookup
returns an available user and the first timeline page carries no bottom
cursor, the orchestrator performs no further page fetch (the fetch log is
exactly the single cursor-less first-page request) — but it returns an
EMPTY Dedup Store: the first page is used only to discover a continuation
cursor; its entries are never appended to `timelines_requests` and are
never expanded. -/
theorem scroll_user_timeline_no_cursor_returns_empty (env : CrawlEnv) (user : User) (fuel : Nat)
    (page : UserTweetAndRepliesRequest)
    (hfetch : env.fetch none = Except.ok page)
    (hcur : page.filter_cursor = none) :
    UserTweetsAndReplies.scroll_user_timeline env (Except.ok user) fuel =
      some (Except.ok ⟨∅, ∅⟩, [none]) := by
  unfold UserTweetsAndReplies.scroll_user_timeline
  rw [hfetch]
  simp [hcur, processRequests]

/-- Counterexample for **C7** as stated.  A crawl whose first page contains
a resolvable tweet entry ("7", whose thread expands to the tweet set
{"7"}) and no bottom cursor returns the empty store and the log `[none]`:
the store does NOT contain the tweets reachable from the first page's
entries, although that reachable set is nonempty (had the main loop
processed the first page, it would have produced exactly {"7"}). -/
theorem scroll_user_timeline_first_page_entries_discarded :
    UserTweetsAndReplies.scroll_user_timeline envC7 (Except.ok userW) 5 =
      some (Except.ok ⟨∅, ∅⟩, [none]) ∧
    (processRequests envC7.parse_thread [pageC7]).tweets = {⟨"7"⟩} ∧
    ({⟨"7"⟩} : Finset Tweet) ≠ (∅ : Finset Tweet) := by
  refine ⟨rfl, by decide, by decide⟩

/-- Witness for the amended **C7** at the concrete crawl. -/
theorem scroll_user_timeline_no_cursor_returns_empty_witness :
    UserTweetsAndReplies.scroll_user_timeline envC7 (Except.ok userW) 5 =
      some (Except.ok ⟨∅, ∅⟩, [none]) :=
  scroll_user_timeline_no_cursor_returns_empty envC7 userW 5 pageC7 rfl rfl

/-- **C8** (status: corrected; amended claim).  For a Conversation-thread
entry: (i) when the first and last boundary items are the same item, the
thread expander is invoked exactly once, on the first item's id; (ii) when
they are distinct and both resolved, it is invoked on the first id and then
on the last id, and both results are merged; (iii) when the FIRST boundary
item is a Tombstone the source `continue`s, skipping the ENTIRE entry — the
last boundary item is discarded, not preserved as the claim states; (iv) a
Tombstone in the LAST position only skips the second invocation, keeping
the first merge; (v) a failed first expander invocation is recorded and
skipped without aborting (the processing function is total and returns the
state unchanged apart from the invocation log — which also discards the
last boundary item). -/
theorem processEntry_conversation_contract :
    (∀ (pt : ParseThread) (st : ExpState) (hc : HomeConversation) f a tw us,
      hc.content.items.head? = some f → hc.content.items.getLast? = some f →
      f.item.tweet_results = TweetResults.Ok a →
      pt a.rest_id = Except.ok (tw, us) →
      processEntry pt st (Entry.HomeConversation hc) =
        ⟨st.tweets ∪ tw, st.users ∪ us, st.calls ++ [a.rest_id]⟩) ∧
    (∀ (pt : ParseThread) (st : ExpState) (hc : HomeConversation) f l a b tw us tw2 us2,
      hc.content.items.head? = some f → hc.content.items.getLast? = some l →
      f ≠ l →
      f.item.tweet_results = TweetResults.Ok a →
      l.item.tweet_results = TweetResults.Ok b →
      pt a.rest_id = Except.ok (tw, us) →
      pt b.rest_id = Except.ok (tw2, us2) →
      processEntry pt st (Entry.HomeConversation hc) =
        ⟨st.tweets ∪ tw ∪ tw2, st.users ∪ us ∪ us2,
          (st.calls ++ [a.rest_id]) ++ [b.rest_id]⟩) ∧
    (∀ (pt : ParseThread) (st : ExpState) (hc : HomeConversation) f,
      hc.content.items.head? = some f →
      f.item.tweet_results = TweetResults.Tombstone →
      processEntry pt st (Entry.HomeConversation hc) = st) ∧
    (∀ (pt : ParseThread) (st : ExpState) (hc : HomeConversation) f l a tw us,
      hc.content.items.head? = some f → hc.content.items.getLast? = some l →
      f ≠ l →
      f.item.tweet_results = TweetResults.Ok a →
      l.item.tweet_results = TweetResults.Tombstone →
      pt a.rest_id = Except.ok (tw, us) →
      processEntry pt st (Entry.HomeConversation hc) =
        ⟨st.tweets ∪ tw, st.users ∪ us, st.calls ++ [a.rest_id]⟩) ∧
    (∀ (pt : ParseThread) (st : ExpState) (hc : HomeConversation) f l a e,
      hc.content.items.head? = some f → hc.content.items.getLast? = some l →
      f.item.tweet_results = TweetResults.Ok a →
      pt a.rest_id = Except.error e →
      processEntry pt st (Entry.HomeConversation hc) =
        ⟨st.tweets, st.users, st.calls ++ [a.rest_id]⟩) := by
  refine ⟨?_, ?_, ?_, ?_, ?_⟩
  · intro pt st hc f a tw us hh hl hf hpt
    simp [processEntry, hh, hl, hf, hpt]
  · intro pt st hc f l a b tw us tw2 us2 hh hl hfl hf hb hpt hpt2
    simp [processEntry, hh, hl, hf, hb, hpt, hpt2, hfl]
  · intro pt st hc f hh hf
    cases hl : hc.content.items.getLast? with
    | none => simp [processEntry, hh, hl]
    | some l => simp [processEntry, hh, hl, hf]
  · intro pt st hc f l a tw us hh hl hfl hf hb hpt
    simp [processEntry, hh, hl, hf, hb, hpt, hfl]
  · intro pt st hc f l a e hh hl hf hpt
    simp [processEntry, hh, hl, hf, hpt]

/-- A conversation entry whose first boundary item is a Tombstone and
whose last boundary item resolves to tweet id "5". -/
def hcT : HomeConversation :=
  ⟨⟨[⟨⟨TweetResults.Tombstone⟩⟩, ⟨⟨TweetResults.Ok ⟨"5"⟩⟩⟩], ⟨[], true⟩⟩⟩

/-- Counterexample for **C8** as stated.  In a conversation entry whose
first boundary item is a Tombstone and whose last boundary item resolves to
tweet id "5" (with an expandable thread {"5"}), processing leaves the state
completely unchanged: the expander is never invoked for "5" (empty call
log), so the Tombstone first item discards the other boundary item. -/
theorem processEntry_first_tombstone_discards_last :
    processEntry ptW ⟨∅, ∅, []⟩ (Entry.HomeConversation hcT) = ⟨∅, ∅, []⟩ ∧
    ptW "5" = Except.ok ({⟨"5"⟩}, ∅) ∧
    ({⟨"5"⟩} : Finset Tweet) ≠ (∅ : Finset Tweet) := by
  refine ⟨rfl, rfl, by decide⟩

/-- A resolved conversation boundary item. -/
def itemOk (rid : String) : HCItem := ⟨⟨TweetResults.Ok ⟨rid⟩⟩⟩
/-- One-item conversation (first = last). -/
def hc1 : HomeConversation := ⟨⟨[itemOk "3"], ⟨[], true⟩⟩⟩
/-- Two-item conversation with distinct resolved boundaries. -/
def hc2 : HomeConversation := ⟨⟨[itemOk "3", itemOk "4"], ⟨[], true⟩⟩⟩
/-- Two-item conversation whose last boundary item is a Tombstone. -/
def hc4 : HomeConversation :=
  ⟨⟨[itemOk "3", ⟨⟨TweetResults.Tombstone⟩⟩], ⟨[], true⟩⟩⟩
/-- Two-item conversation whose first boundary id fails to expand. -/
def hc5 : HomeConversation := ⟨⟨[itemOk "err", itemOk "4"], ⟨[], true⟩⟩⟩

/-- Witness for the amended **C8**: all five clauses evaluated on concrete
conversation entries. -/
theorem processEntry_conversation_contract_witness :
    processEntry ptW ⟨∅, ∅, []⟩ (Entry.HomeConversation hc1) =
      ⟨∅ ∪ {Tweet.mk "3"}, ∅ ∪ ∅, [] ++ ["3"]⟩ ∧
    processEntry ptW ⟨∅, ∅, []⟩ (Entry.HomeConversation hc2) =
      ⟨∅ ∪ {Tweet.mk "3"} ∪ {Tweet.mk "4"}, ∅ ∪ ∅ ∪ ∅, ([] ++ ["3"]) ++ ["4"]⟩ ∧
    processEntry ptW ⟨∅, ∅, []⟩ (Entry.HomeConversation hcT) = ⟨∅, ∅, []⟩ ∧
    processEntry ptW ⟨∅, ∅, []⟩ (Entry.HomeConversation hc4) =
      ⟨∅ ∪ {Tweet.mk "3"}, ∅ ∪ ∅, [] ++ ["3"]⟩ ∧
    processEntry ptW ⟨∅, ∅, []⟩ (Entry.HomeConversation hc5) =
      ⟨∅, ∅, [] ++ ["err"]⟩ :=
  ⟨processEntry_conversation_contract.1 ptW ⟨∅, ∅, []⟩ hc1 (itemOk "3") (TweetData.mk "3")
     ({Tweet.mk "3"} : Finset Tweet) (∅ : Finset StoreUser) rfl rfl rfl rfl,
   processEntry_conversation_contract.2.1 ptW ⟨∅, ∅, []⟩ hc2 (itemOk "3") (itemOk "4") (TweetData.mk "3")
     (TweetData.mk "4") ({Tweet.mk "3"} : Finset Tweet) (∅ : Finset StoreUser)
     ({Tweet.mk "4"} : Finset Tweet) (∅ : Finset StoreUser)
     rfl rfl (by decide) rfl rfl rfl rfl,
   processEntry_conversation_contract.2.2.1 ptW ⟨∅, ∅, []⟩ hcT ⟨⟨TweetResults.Tombstone⟩⟩ rfl rfl,
   processEntry_conversation_contract.2.2.2.1 ptW ⟨∅, ∅, []⟩ hc4 (itemOk "3") ⟨⟨TweetResults.Tombstone⟩⟩
     (TweetData.mk "3") ({Tweet.mk "3"} : Finset Tweet) (∅ : Finset StoreUser)
     rfl rfl (by decide) rfl rfl rfl,
   processEntry_conversation_contract.2.2.2.2 ptW ⟨∅, ∅, []⟩ hc5 (itemOk "err") (itemOk "4") (TweetData.mk "err")
     (TwtScrapeError.Transport "err") rfl rfl rfl rfl⟩

/-- **C9** (status: confirmed).  Dedup-Store merging is an idempotent
union: in any store produced by a crawl, each tweet id occurs exactly once
and each user id occurs exactly once (the store is keyed by the entities'
platform-assigned identity); re-inserting an already-present tweet or user
leaves the store unchanged; and the merge operation used by the main loop
(set union of an expansion result) is idempotent, for both set types.
(The crawl hypothesis scopes the statement to stores the orchestrator
actually returns.) -/
theorem dedup_store_idempotent_union (env : CrawlEnv) (ur : Except TwtScrapeError User) (fuel : Nat)
    (st : UserTweetsAndReplies) (log : List (Option String))
    (_h : UserTweetsAndReplies.scroll_user_timeline env ur fuel =
      some (Except.ok st, log)) :
    (∀ t ∈ st.tweets, (st.tweets.filter fun t2 => t2.rest_id = t.rest_id).card = 1) ∧
    (∀ u ∈ st.users, (st.users.filter fun u2 => u2.rest_id = u.rest_id).card = 1) ∧
    (∀ t ∈ st.tweets, insert t st.tweets = st.tweets) ∧
    (∀ u ∈ st.users, insert u st.users = st.users) ∧
    (∀ s tw : Finset Tweet, (s ∪ tw) ∪ tw = s ∪ tw) ∧
    (∀ s us : Finset StoreUser, (s ∪ us) ∪ us = s ∪ us) := by
  refine ⟨?_, ?_, ?_, ?_, ?_, ?_⟩
  · intro t ht
    have hft : (st.tweets.filter fun t2 => t2.rest_id = t.rest_id) = {t} := by
      ext t2
      simp only [Finset.mem_filter, Finset.mem_singleton]
      constructor
      · rintro ⟨_, hid⟩
        cases t2
        cases t
        simpa using hid
      · rintro rfl
        exact ⟨ht, rfl⟩
    rw [hft, Finset.card_singleton]
  · intro u hu
    have hfu : (st.users.filter fun u2 => u2.rest_id = u.rest_id) = {u} := by
      ext u2
      simp only [Finset.mem_filter, Finset.mem_singleton]
      constructor
      · rintro ⟨_, hid⟩
        cases u2
        cases u
        simpa using hid
      · rintro rfl
        exact ⟨hu, rfl⟩
    rw [hfu, Finset.card_singleton]
  · intro t ht
    exact Finset.insert_eq_self.mpr ht
  · intro u hu
    exact Finset.insert_eq_self.mpr hu
  · intro s tw
    rw [Finset.union_assoc, Finset.union_self]
  · intro s us
    rw [Finset.union_assoc, Finset.union_self]

/-- C9 scenario: first page carrying a bottom cursor "1". -/
def pageC9first : UserTweetAndRepliesRequest := mkTimelinePage [curEntry "Bottom" "1"] []
/-- C9 scenario: the walker page with two tweet entries whose threads both
contain tweet "9". -/
def pageC9 : UserTweetAndRepliesRequest := mkTimelinePage [tweetEntry "1", tweetEntry "2"] []
/-- The C9 thread expander: the threads of tweets "1" and "2" both consist
of the single tweet "9" authored by user "77". -/
def ptC9 : ParseThread := fun i =>
  if i = "1" ∨ i = "2" then Except.ok ({⟨"9"⟩}, {⟨"77"⟩})
  else Except.error (TwtScrapeError.Transport i)

/-- Crawl collaborators for the C9 scenario. -/
def envC9 : CrawlEnv :=
  ⟨fun o => match o with
    | none => Except.ok pageC9first
    | some _ => Except.ok pageC9, ptC9⟩

/-- Witness for **C9**: a concrete crawl in which tweet id "9" and user id
"77" are each produced by two thread expansions (of ids "1" and "2") on
each of the two processed copies of the page — the resulting store holds
exactly one element with tweet id "9" and exactly one with user id "77",
and re-inserting either is a no-op. -/
theorem dedup_store_idempotent_union_witness :
    (({Tweet.mk "9"} : Finset Tweet).filter
      (fun t2 => t2.rest_id = (Tweet.mk "9").rest_id)).card = 1 ∧
    (({StoreUser.mk "77"} : Finset StoreUser).filter
      (fun u2 => u2.rest_id = (StoreUser.mk "77").rest_id)).card = 1 ∧
    insert (Tweet.mk "9") ({Tweet.mk "9"} : Finset Tweet) = {Tweet.mk "9"} ∧
    insert (StoreUser.mk "77") ({StoreUser.mk "77"} : Finset StoreUser) =
      {StoreUser.mk "77"} :=
  ⟨(dedup_store_idempotent_union envC9 (Except.ok userW) 2
      ⟨{StoreUser.mk "77"}, {Tweet.mk "9"}⟩ [none, some "1", some "1"]
      rfl).1 (Tweet.mk "9") (Finset.mem_singleton_self _),
   (dedup_store_idempotent_union envC9 (Except.ok userW) 2
      ⟨{StoreUser.mk "77"}, {Tweet.mk "9"}⟩ [none, some "1", some "1"]
      rfl).2.1 (StoreUser.mk "77") (Finset.mem_singleton_self _),
   (dedup_store_idempotent_union envC9 (Except.ok userW) 2
      ⟨{StoreUser.mk "77"}, {Tweet.mk "9"}⟩ [none, some "1", some "1"]
      rfl).2.2.1 (Tweet.mk "9") (Finset.mem_singleton_self _),
   (dedup_store_idempotent_union envC9 (Except.ok userW) 2
      ⟨{StoreUser.mk "77"}, {Tweet.mk "9"}⟩ [none, some "1", some "1"]
      rfl).2.2.2.1 (StoreUser.mk "77") (Finset.mem_singleton_self _)⟩

/-- **C10** (status: confirmed).  The first timeline page is never passed
through the soft/hard error filter: a first-page response whose envelope
carries a fatal (non-37) error code but still decodes does not abort the
crawl — with no bottom cursor present the crawl completes successfully
after that single fetch.  By contrast, the same fatal-envelope page fetched
INSIDE the pagination walker aborts immediately with the structured API
error, because `json_request_filter_errors` is applied only there. -/
theorem first_page_envelope_never_filtered :
    (∀ (env : CrawlEnv) (user : User) (fuel : Nat)
      (page : UserTweetAndRepliesRequest) (e : Error) (rest : List Error),
      env.fetch none = Except.ok page → page.errors = e :: rest → e.code ≠ 37 →
      page.filter_cursor = none →
      UserTweetsAndReplies.scroll_user_timeline env (Except.ok user) fuel =
        some (Except.ok ⟨∅, ∅⟩, [none])) ∧
    (∀ (fetch : String → Except TwtScrapeError UserTweetAndRepliesRequest)
      (c : String) (page : UserTweetAndRepliesRequest) (e : Error)
      (rest : List Error) (fuel : Nat),
      fetch c = Except.ok page → page.errors = e :: rest → e.code ≠ 37 →
      UserTweetAndRepliesRequest.scroll fetch (fuel + 1) c =
        some (Except.error (TwtScrapeError.TwitterJSONError e.code e.message), [c])) := by
  constructor
  · intro env user fuel page e rest hfetch herr hcode hcur
    unfold UserTweetsAndReplies.scroll_user_timeline
    rw [hfetch]
    simp [hcur, processRequests]
  · intro fetch c page e rest fuel hf herr hcode
    have hbad : page.json_request_filter_errors =
        Except.error (TwtScrapeError.TwitterJSONError e.code e.message) := by
      simp [UserTweetAndRepliesRequest.json_request_filter_errors, herr, hcode]
    unfold UserTweetAndRepliesRequest.scroll
    unfold scrollAux
    rw [hf]
    simp [hbad]

/-- Crawl collaborators for the C10 scenario: every timeline fetch returns
the fatal-envelope page `pageE99`. -/
def envC10 : CrawlEnv := ⟨fun _ => Except.ok pageE99, ptW⟩

/-- Witness for **C10**: the code-99 page as first page leaves the crawl
successful; as a walker page it aborts with `TwitterJSONError 99`. -/
theorem first_page_envelope_never_filtered_witness :
    UserTweetsAndReplies.scroll_user_timeline envC10 (Except.ok userW) 3 =
      some (Except.ok ⟨∅, ∅⟩, [none]) ∧
    UserTweetAndRepliesRequest.scroll (fun _ => Except.ok pageE99) 1 "c" =
      some (Except.error (TwtScrapeError.TwitterJSONError 99 "rate limited"), ["c"]) :=
  ⟨first_page_envelope_never_filtered.1 envC10 userW 3 pageE99 ⟨"rate limited", 99⟩ [] rfl rfl (by decide) rfl,
   first_page_envelope_never_filtered.2 (fun _ => Except.ok pageE99) "c" pageE99 ⟨"rate limited", 99⟩ [] 0
     rfl rfl (by decide)⟩
